import Mathlib

/-!
Verification of `solarApp.py`, a solar energy estimation pipeline.
Python floats are embedded as rationals (ℚ); fallible code (provider
fetches that raise, division that raises ZeroDivisionError) is embedded
with `Except` / `Option`.
-/

namespace SolarApp

/-- Python's `round(q, 2)` at integer precision: round half to even
(banker's rounding), as Python's built-in `round` does. -/
def roundHalfEven (q : ℚ) : ℤ :=
  let f := ⌊q⌋
  if q - f < 1/2 then f
  else if q - f > 1/2 then f + 1
  else if f % 2 = 0 then f else f + 1

/-- Python's `round(q, 2)`: round to 2 decimal places, half to even. -/
def round2 (q : ℚ) : ℚ := (roundHalfEven (q * 100) : ℚ) / 100

/-- Which irradiance provider supplied the reading. -/
inductive Source where
  | PRIMARY
  | FALLBACK
deriving DecidableEq, Repr

/-- An irradiance reading together with the provider that produced it. -/
structure IrradianceReading where
  value : ℚ
  source : Source
deriving DecidableEq, Repr

/-- `get_irradiance_pvgis` (Primary provider, lines 16-30).  The HTTP/JSON
layer is abstracted: `response = some hourly` means the response parsed and
`hourly` is the list of hourly `G(i)` values; `none` means the request or
the parse inside the `try` block raised, which the code converts to
`ValueError("PVGIS failed")`.  On a parsed list (even an empty one) the code
returns `round(sum(hourly) / 1000 / 365, 2)` without raising. -/
def get_irradiance_pvgis (response : Option (List ℚ)) : Except String ℚ :=
  match response with
  | none => .error "PVGIS failed"
  | some hourly => .ok (round2 (hourly.sum / 1000 / 365))

/-- `get_irradiance_nasa` (Fallback provider, lines 33-46).  `some values`
is the parsed list of twelve monthly values; `none` a raised request/parse
error.  `sum(values) / len(values)` raises ZeroDivisionError on an empty
list, which the `except` clause also converts to the fallback error. -/
def get_irradiance_nasa (response : Option (List ℚ)) : Except String ℚ :=
  match response with
  | none => .error "NASA POWER fallback also failed"
  | some values =>
    if values.length = 0 then .error "NASA POWER fallback also failed"
    else .ok (round2 (values.sum / values.length))

/-- `estimate_energy_potential` (lines 49-50). -/
def estimate_energy_potential (irradiance area_m2 panel_efficiency : ℚ) : ℚ :=
  irradiance * 365 * area_m2 * panel_efficiency

/-- `size_components` (lines 52-59).  `int(np.ceil(x))` is the integer
ceiling (for an already-integral float, `int` truncation is the identity). -/
def size_components (energy_kWh_per_year : ℚ) : ℤ × ℚ × ℚ :=
  let daily_energy := energy_kWh_per_year / 365
  let panel_wattage : ℚ := 350
  let PSH : ℚ := 4.5
  let panels_needed := daily_energy / (panel_wattage * PSH / 1000)
  let inverter_size_kW := daily_energy / PSH
  let battery_size_kWh := daily_energy * 0.5
  (⌈panels_needed⌉, round2 inverter_size_kW, round2 battery_size_kWh)

/-- `calculate_lcoe` (lines 61-62).  Python's `/` raises ZeroDivisionError
when the denominator is zero, embedded as `none`. -/
def calculate_lcoe (total_cost annual_energy_kWh : ℚ) (system_lifetime : ℚ) : Option ℚ :=
  if annual_energy_kWh * system_lifetime = 0 then none
  else some (total_cost / (annual_energy_kWh * system_lifetime))

/-- The list comprehension on line 65: discounted cash flows
`annual_savings / (1 + interest_rate) ** year` for `year` in
`range(1, lifetime + 1)`. -/
def cashFlows (annual_savings interest_rate : ℚ) (lifetime : ℕ) : List ℚ :=
  (List.range lifetime).map (fun y => annual_savings / (1 + interest_rate) ^ (y + 1))

/-- `np.cumsum` (line 66): running partial sums, starting from `acc` (the
Python call has `acc = 0`). -/
def cumsum : ℚ → List ℚ → List ℚ
  | _, [] => []
  | acc, x :: xs => (acc + x) :: cumsum (acc + x) xs

/-- Index of the first element `x` of the list with `tc ≤ x`, if any.
`np.argmax(cumulative >= total_cost)` (line 69) is this index when a
qualifying element exists, and `0` when none does. -/
def findFirstGe (tc : ℚ) : List ℚ → Option ℕ
  | [] => none
  | x :: xs => if tc ≤ x then some 0 else (findFirstGe tc xs).map (· + 1)

/-- `calculate_discounted_payback` (lines 64-69).  `cumulative[-1]` is the
last partial sum (`getLast?`; the Python code would raise an IndexError for
`lifetime = 0`, a case no caller exercises — every call in the source uses
the default `lifetime = 25`).  Division is ℚ-division: Python raises
ZeroDivisionError when `interest_rate = -1`, a case outside every claim,
which all assume `interest_rate > -1`. -/
def calculate_discounted_payback (total_cost annual_savings interest_rate : ℚ)
    (lifetime : ℕ) : Option ℕ :=
  let cash_flows := cashFlows annual_savings interest_rate lifetime
  let cumulative := cumsum 0 cash_flows
  match cumulative.getLast? with
  | none => none
  | some last =>
    if last < total_cost then none
    else some ((findFirstGe total_cost cumulative).getD 0 + 1)

/-- `system_capacity_kW = panels * 0.35` (line 101). -/
def systemCapacityKW (panels : ℤ) : ℚ := (panels : ℚ) * 0.35

/-- `total_cost` (lines 98-103): `system_capacity_kW * (cost_per_watt +
bos_cost) * 1000 + battery_kWh * battery_cost` with `cost_per_watt = 0.5`,
`bos_cost = 0.15`, `battery_cost = 200`. -/
def totalCostOf (panels : ℤ) (battery_kWh : ℚ) : ℚ :=
  systemCapacityKW panels * (0.5 + 0.15) * 1000 + battery_kWh * 200

/-- The aggregate produced by one successful run (lines 95-107). -/
structure EstimationResult where
  reading : IrradianceReading
  energy_kWh : ℚ
  panels : ℤ
  inverter_kW : ℚ
  battery_kWh : ℚ
  total_cost : ℚ
  lcoe : ℚ
  payback : Option ℕ
deriving DecidableEq, Repr

/-- How many times each stage ran during one press of the Estimate button. -/
structure RunTrace where
  primaryCalls : ℕ
  fallbackCalls : ℕ
  estimatorCalls : ℕ
deriving DecidableEq, Repr

/-- The numeric stages of the handler (lines 95-107), run once irradiance is
resolved: energy, sizing, cost, LCOE (whose ZeroDivisionError propagates to
the outer handler), savings, payback. -/
def computeStages (reading : IrradianceReading) (area_m2 panel_efficiency interest_rate : ℚ) :
    Except String EstimationResult :=
  let energy_kWh := estimate_energy_potential reading.value area_m2 panel_efficiency
  let (panels, inverter_kW, battery_kWh) := size_components energy_kWh
  let total_cost := totalCostOf panels battery_kWh
  match calculate_lcoe total_cost energy_kWh 25 with
  | none => .error "ZeroDivisionError"
  | some lcoe =>
    let savings := energy_kWh * 0.15
    let payback := calculate_discounted_payback total_cost savings interest_rate 25
    .ok ⟨reading, energy_kWh, panels, inverter_kW, battery_kWh, total_cost, lcoe, payback⟩

/-- The inner try/except of the handler (lines 88-93): attempt Primary;
on any exception attempt Fallback; a Fallback exception propagates.
Returns (primary call count, fallback call count, outcome). -/
def acquireIrradiance (primaryResponse fallbackResponse : Option (List ℚ)) :
    ℕ × ℕ × Except String IrradianceReading :=
  match get_irradiance_pvgis primaryResponse with
  | .ok v => (1, 0, .ok ⟨v, .PRIMARY⟩)
  | .error _ =>
    match get_irradiance_nasa fallbackResponse with
    | .ok v => (1, 1, .ok ⟨v, .FALLBACK⟩)
    | .error e => (1, 1, .error e)

/-- The Estimate button handler from irradiance acquisition on
(lines 88-107; coordinates are already resolved — a geocoding failure
aborts in the outer handler before any provider call).  Any stage
exception surfaces as the run's error via the outer except (line 118). -/
def runEstimate (primaryResponse fallbackResponse : Option (List ℚ))
    (area_m2 panel_efficiency interest_rate : ℚ) :
    RunTrace × Except String EstimationResult :=
  match acquireIrradiance primaryResponse fallbackResponse with
  | (pc, fc, .ok reading) =>
    (⟨pc, fc, 1⟩, computeStages reading area_m2 panel_efficiency interest_rate)
  | (pc, fc, .error e) => (⟨pc, fc, 0⟩, .error e)

/-- Mathematical cumulative discounted savings after `y` years:
the sum over years `1..y` of `s / (1+r)^year` (spec formula used to state
the claims about `calculate_discounted_payback`). -/
def discountedCum (s r : ℚ) (y : ℕ) : ℚ :=
  ∑ k in Finset.range y, s / (1 + r) ^ (k + 1)

/-! ### Helper lemmas -/

lemma cashFlows_sum (s r : ℚ) (n : ℕ) :
    (cashFlows s r n).sum = discountedCum s r n := by
  induction n with
  | zero => simp [cashFlows, discountedCum]
  | succ n ih =>
    rw [cashFlows, List.range_succ, List.map_append, List.sum_append,
      ← cashFlows, ih]
    simp only [discountedCum, Finset.sum_range_succ]
    simp

lemma cumsum_snoc (acc x : ℚ) (l : List ℚ) :
    cumsum acc (l ++ [x]) = cumsum acc l ++ [acc + l.sum + x] := by
  induction l generalizing acc with
  | nil => simp [cumsum]
  | cons a l ih =>
    show (acc + a) :: cumsum (acc + a) (l ++ [x]) =
      (acc + a) :: (cumsum (acc + a) l ++ [acc + (a :: l).sum + x])
    rw [ih, List.sum_cons]
    have h : acc + a + l.sum + x = acc + (a + l.sum) + x := by ring
    rw [h]

lemma cumsum_cashFlows (s r : ℚ) (n : ℕ) :
    cumsum 0 (cashFlows s r n) =
      (List.range n).map (fun i => discountedCum s r (i + 1)) := by
  induction n with
  | zero => simp [cashFlows, cumsum]
  | succ n ih =>
    rw [cashFlows, List.range_succ, List.map_append, ← cashFlows,
      List.map_singleton, cumsum_snoc, ih, List.map_append,
      List.map_singleton, cashFlows_sum]
    simp only [discountedCum, Finset.sum_range_succ]
    simp

lemma range_map_getLast (g : ℕ → ℚ) (n : ℕ) :
    ((List.range (n + 1)).map g).getLast? = some (g n) := by
  rw [List.range_succ, List.map_append]
  simp

lemma findFirstGe_cons (tc x : ℚ) (xs : List ℚ) :
    findFirstGe tc (x :: xs) =
      if tc ≤ x then some 0 else (findFirstGe tc xs).map (· + 1) := rfl

lemma findFirstGe_eq_none (tc : ℚ) (l : List ℚ) :
    findFirstGe tc l = none ↔ ∀ x ∈ l, x < tc := by
  induction l with
  | nil => simp [findFirstGe]
  | cons x xs ih =>
    rw [findFirstGe_cons]
    by_cases h : tc ≤ x
    · simp only [if_pos h]
      constructor
      · intro hc; exact absurd hc (by simp)
      · intro hall; exact absurd (hall x (List.mem_cons_self x xs)) (not_lt.mpr h)
    · simp [if_neg h, Option.map_eq_none', ih, not_le.mp h]

lemma findFirstGe_range_map (tc : ℚ) (n : ℕ) (g : ℕ → ℚ) (i : ℕ) :
    findFirstGe tc ((List.range n).map g) = some i ↔
      (i < n ∧ tc ≤ g i ∧ ∀ j, j < i → g j < tc) := by
  induction n generalizing g i with
  | zero => simp [findFirstGe]
  | succ n ih =>
    rw [List.range_succ_eq_map, List.map_cons, List.map_map, findFirstGe_cons]
    by_cases h0 : tc ≤ g 0
    · rw [if_pos h0]
      cases i with
      | zero =>
        simp only [Option.some.injEq]
        constructor
        · intro _; exact ⟨Nat.succ_pos n, h0, fun j hj => absurd hj (Nat.not_lt_zero j)⟩
        · intro _; trivial
      | succ i =>
        constructor
        · intro h; exact absurd (Option.some.inj h) (by omega)
        · rintro ⟨-, -, hall⟩
          exact absurd h0 (not_le.mpr (hall 0 (Nat.succ_pos i)))
    · rw [if_neg h0]
      have hg0 : g 0 < tc := not_le.mp h0
      cases i with
      | zero =>
        constructor
        · intro h
          obtain ⟨a, -, ha⟩ := Option.map_eq_some'.mp h
          exact absurd ha (by omega)
        · rintro ⟨-, htc, -⟩
          exact absurd htc h0
      | succ i =>
        rw [Option.map_eq_some']
        constructor
        · rintro ⟨a, ha, hai⟩
          obtain rfl : a = i := by omega
          rw [ih] at ha
          obtain ⟨h1, h2, h3⟩ := ha
          refine ⟨by omega, h2, ?_⟩
          intro j hj
          cases j with
          | zero => exact hg0
          | succ j => exact h3 j (by omega)
        · rintro ⟨h1, h2, h3⟩
          refine ⟨i, ?_, rfl⟩
          rw [ih]
          exact ⟨by omega, h2, fun j hj => h3 (j + 1) (by omega)⟩

lemma payback_eq (tc s r : ℚ) (n : ℕ) :
    calculate_discounted_payback tc s r (n + 1) =
      if discountedCum s r (n + 1) < tc then none
      else some ((findFirstGe tc ((List.range (n + 1)).map
        (fun i => discountedCum s r (i + 1)))).getD 0 + 1) := by
  simp only [calculate_discounted_payback, cumsum_cashFlows, range_map_getLast]

lemma payback_eq_none_iff (tc s r : ℚ) (n : ℕ) :
    calculate_discounted_payback tc s r (n + 1) = none ↔
      discountedCum s r (n + 1) < tc := by
  rw [payback_eq]
  by_cases h : discountedCum s r (n + 1) < tc <;> simp [h]

lemma payback_eq_some_iff (tc s r : ℚ) (n y : ℕ) :
    calculate_discounted_payback tc s r (n + 1) = some y ↔
      (tc ≤ discountedCum s r (n + 1) ∧ 1 ≤ y ∧ y ≤ n + 1 ∧
        tc ≤ discountedCum s r y ∧
        ∀ z, 1 ≤ z → z < y → discountedCum s r z < tc) := by
  rw [payback_eq]
  by_cases h : discountedCum s r (n + 1) < tc
  · rw [if_pos h]
    constructor
    · intro hc; exact absurd hc (by simp)
    · rintro ⟨hc, -⟩; exact absurd hc (not_le.mpr h)
  · rw [if_neg h]
    rw [not_lt] at h
    have hex : ∃ i, findFirstGe tc ((List.range (n + 1)).map
        (fun i => discountedCum s r (i + 1))) = some i := by
      cases hf : findFirstGe tc ((List.range (n + 1)).map
          (fun i => discountedCum s r (i + 1))) with
      | some i => exact ⟨i, rfl⟩
      | none =>
        rw [findFirstGe_eq_none] at hf
        have hmem : discountedCum s r (n + 1) ∈
            (List.range (n + 1)).map (fun i => discountedCum s r (i + 1)) :=
          List.mem_map.mpr ⟨n, by simp, rfl⟩
        exact absurd h (not_le.mpr (hf _ hmem))
    obtain ⟨i, hi⟩ := hex
    rw [hi, Option.getD_some]
    rw [findFirstGe_range_map] at hi
    obtain ⟨hin, hti, hfirst⟩ := hi
    constructor
    · intro h'
      obtain rfl : y = i + 1 := (Option.some.inj h').symm
      refine ⟨h, by omega, by omega, hti, ?_⟩
      intro z h1z hzy
      obtain ⟨j, rfl⟩ : ∃ j, z = j + 1 := ⟨z - 1, by omega⟩
      exact hfirst j (by omega)
    · rintro ⟨-, h1y, hyn, hty, hfirst'⟩
      have hiy : i + 1 = y := by
        by_contra hne
        rcases Nat.lt_or_ge (i + 1) y with hlt | hge
        · exact absurd hti (not_le.mpr (hfirst' (i + 1) (by omega) hlt))
        · have hylt : y < i + 1 := by omega
          obtain ⟨j, rfl⟩ : ∃ j, y = j + 1 := ⟨y - 1, by omega⟩
          exact absurd hty (not_le.mpr (hfirst j (by omega)))
      rw [hiy]

lemma discountedCum_mono (s r : ℚ) (hs : 0 ≤ s) (hr : 0 ≤ r) :
    Monotone (discountedCum s r) := by
  apply monotone_nat_of_le_succ
  intro n
  simp only [discountedCum, Finset.sum_range_succ]
  have h : 0 ≤ s / (1 + r) ^ (n + 1) :=
    div_nonneg hs (pow_nonneg (by linarith) _)
  linarith

lemma discountedCum_le (s r : ℚ) (hs : 0 ≤ s) (hr : 0 ≤ r) (n : ℕ) :
    discountedCum s r n ≤ n * s := by
  rw [discountedCum]
  calc ∑ k in Finset.range n, s / (1 + r) ^ (k + 1)
      ≤ ∑ _k in Finset.range n, s := by
        apply Finset.sum_le_sum
        intro k _
        apply div_le_self hs
        calc (1 : ℚ) = 1 ^ (k + 1) := (one_pow _).symm
        _ ≤ (1 + r) ^ (k + 1) := pow_le_pow_left₀ (by norm_num) (by linarith) _
    _ = n * s := by rw [Finset.sum_const, Finset.card_range, nsmul_eq_mul]

lemma discountedCum_anti (s r1 r2 : ℚ) (hs : 0 ≤ s) (h1 : 0 ≤ r1)
    (h12 : r1 ≤ r2) (n : ℕ) :
    discountedCum s r2 n ≤ discountedCum s r1 n := by
  apply Finset.sum_le_sum
  intro k _
  have hp1 : (0 : ℚ) < (1 + r1) ^ (k + 1) := pow_pos (by linarith) _
  have hple : (1 + r1) ^ (k + 1) ≤ (1 + r2) ^ (k + 1) :=
    pow_le_pow_left₀ (by linarith) (by linarith) _
  exact div_le_div_of_nonneg_left hs hp1 hple

lemma discountedCum_nonneg (s r : ℚ) (hs : 0 ≤ s) (hr : -1 < r) (n : ℕ) :
    0 ≤ discountedCum s r n := by
  apply Finset.sum_nonneg
  intro k _
  exact div_nonneg hs (pow_nonneg (by linarith) _)

lemma discountedCum_one (s r : ℚ) : discountedCum s r 1 = s / (1 + r) := by
  simp [discountedCum]

lemma roundHalfEven_nonneg (q : ℚ) (hq : 0 ≤ q) : 0 ≤ roundHalfEven q := by
  rw [roundHalfEven]
  have hf : (0 : ℤ) ≤ ⌊q⌋ := Int.floor_nonneg.mpr hq
  split_ifs <;> omega

lemma round2_nonneg (q : ℚ) (hq : 0 ≤ q) : 0 ≤ round2 q := by
  rw [round2]
  apply div_nonneg _ (by norm_num)
  exact_mod_cast roundHalfEven_nonneg (q * 100) (by positivity)

lemma calculate_lcoe_eq_some (tc e : ℚ) (he : e ≠ 0) :
    calculate_lcoe tc e 25 = some (tc / (e * 25)) := by
  rw [calculate_lcoe, if_neg]
  exact mul_ne_zero he (by norm_num)

lemma le_ceil_mul (d c : ℚ) (hc : 0 < c) : d ≤ (⌈d / c⌉ : ℚ) * c := by
  rw [← div_le_iff₀ hc]
  exact Int.le_ceil _

lemma payback25_none_iff (tc s r : ℚ) :
    calculate_discounted_payback tc s r 25 = none ↔ discountedCum s r 25 < tc :=
  payback_eq_none_iff tc s r 24

lemma payback25_some_iff (tc s r : ℚ) (y : ℕ) :
    calculate_discounted_payback tc s r 25 = some y ↔
      (tc ≤ discountedCum s r 25 ∧ 1 ≤ y ∧ y ≤ 25 ∧ tc ≤ discountedCum s r y ∧
        ∀ z, 1 ≤ z → z < y → discountedCum s r z < tc) :=
  payback_eq_some_iff tc s r 24 y

/-! ### Claims -/

/-- Claim C2: for all positive irradiance, area, and efficiency in the unit
interval, `estimate_energy_potential` returns exactly
irradiance × 365 × area × efficiency, with no failure modes (the function
is total). -/
theorem c2_energy_formula (irr area eff : ℚ) (_h1 : 0 < irr) (_h2 : 0 < area)
    (_h3 : 0 < eff) (_h4 : eff ≤ 1) :
    estimate_energy_potential irr area eff = irr * 365 * area * eff := rfl

theorem c2_energy_formula_witness :
    (0 : ℚ) < 5 ∧ (0 : ℚ) < 100 ∧ (0 : ℚ) < 18 / 100 ∧ (18 / 100 : ℚ) ≤ 1 ∧
    estimate_energy_potential 5 100 (18 / 100) = 5 * 365 * 100 * (18 / 100) :=
  ⟨by norm_num, by norm_num, by norm_num, by norm_num,
    c2_energy_formula 5 100 (18 / 100) (by norm_num) (by norm_num)
      (by norm_num) (by norm_num)⟩

/-- Claim C3: for every nonnegative annual energy, `size_components` returns
the ceiling panel count for daily energy over 350 W × 4.5 PSH panels (so the
chosen panels cover the daily energy — never undersized), the inverter
capacity dailyEnergy / 4.5 rounded to 2 decimals, and the battery capacity
dailyEnergy × 0.5 rounded to 2 decimals. -/
theorem c3_sizing (e : ℚ) (_he : 0 ≤ e) :
    size_components e =
      (⌈e / 365 / (350 * 4.5 / 1000)⌉, round2 (e / 365 / 4.5),
        round2 (e / 365 * 0.5)) ∧
    e / 365 ≤ (⌈e / 365 / (350 * 4.5 / 1000)⌉ : ℚ) * (350 * 4.5 / 1000) :=
  ⟨rfl, le_ceil_mul _ _ (by norm_num)⟩

theorem c3_sizing_witness :
    (0 : ℚ) ≤ 32850 ∧
    (size_components 32850 =
      (⌈(32850 : ℚ) / 365 / (350 * 4.5 / 1000)⌉, round2 ((32850 : ℚ) / 365 / 4.5),
        round2 ((32850 : ℚ) / 365 * 0.5)) ∧
    (32850 : ℚ) / 365 ≤
      (⌈(32850 : ℚ) / 365 / (350 * 4.5 / 1000)⌉ : ℚ) * (350 * 4.5 / 1000)) :=
  ⟨by norm_num, c3_sizing 32850 (by norm_num)⟩

/-- Claim C4: the system capacity used in pricing is panels × 0.35 kW
(equivalently panels × 350 W, consistent with the 350 W panel wattage in
`size_components`), and the total cost is
capacity × (0.5 + 0.15) × 1000 + battery × 200. -/
theorem c4_cost_formula (panels : ℤ) (battery : ℚ) :
    systemCapacityKW panels = (panels : ℚ) * 0.35 ∧
    systemCapacityKW panels * 1000 = (panels : ℚ) * 350 ∧
    totalCostOf panels battery =
      (panels : ℚ) * 0.35 * (0.5 + 0.15) * 1000 + battery * 200 := by
  refine ⟨rfl, ?_, rfl⟩
  rw [systemCapacityKW]
  ring

/-- Claim C5: for nonnegative savings and interest rate,
`calculate_discounted_payback` with the 25-year lifetime returns the first
year whose cumulative discounted cash flow reaches the total cost, `none`
when the cumulative sum never reaches it within 25 years, and in particular
`none` whenever even the undiscounted 25-year savings total is below the
total cost. -/
theorem c5_payback_characterization (tc s r : ℚ) (hs : 0 ≤ s) (hr : 0 ≤ r) :
    (calculate_discounted_payback tc s r 25 = none ↔ discountedCum s r 25 < tc) ∧
    (∀ y, calculate_discounted_payback tc s r 25 = some y ↔
      (1 ≤ y ∧ y ≤ 25 ∧ tc ≤ discountedCum s r y ∧
        ∀ z, 1 ≤ z → z < y → discountedCum s r z < tc)) ∧
    (25 * s < tc → calculate_discounted_payback tc s r 25 = none) := by
  refine ⟨payback25_none_iff tc s r, ?_, ?_⟩
  · intro y
    rw [payback25_some_iff]
    constructor
    · rintro ⟨-, h1, h2, h3, h4⟩; exact ⟨h1, h2, h3, h4⟩
    · rintro ⟨h1, h2, h3, h4⟩
      exact ⟨le_trans h3 (discountedCum_mono s r hs hr h2), h1, h2, h3, h4⟩
  · intro hlt
    rw [payback25_none_iff]
    have hle : discountedCum s r 25 ≤ 25 * s := by
      have h := discountedCum_le s r hs hr 25
      push_cast at h
      exact h
    linarith

theorem c5_payback_characterization_witness :
    (0 : ℚ) ≤ 1 ∧ (0 : ℚ) ≤ 0 ∧
    ((calculate_discounted_payback 10 1 0 25 = none ↔ discountedCum 1 0 25 < 10) ∧
    (∀ y, calculate_discounted_payback 10 1 0 25 = some y ↔
      (1 ≤ y ∧ y ≤ 25 ∧ (10 : ℚ) ≤ discountedCum 1 0 y ∧
        ∀ z, 1 ≤ z → z < y → discountedCum 1 0 z < 10)) ∧
    ((25 : ℚ) * 1 < 10 → calculate_discounted_payback 10 1 0 25 = none)) :=
  ⟨by norm_num, le_refl 0,
    c5_payback_characterization 10 1 0 (by norm_num) (le_refl 0)⟩

/-- Claim C6: for nonzero annual energy, `calculate_lcoe` returns exactly
totalCost / (annualEnergy × 25); at zero annual energy the division fails
(the guarded embedding returns `none`), so under a positive-energy
precondition the error branch is unreachable. -/
theorem c6_lcoe (tc e : ℚ) (he : e ≠ 0) :
    calculate_lcoe tc e 25 = some (tc / (e * 25)) ∧
    calculate_lcoe tc 0 25 = none := by
  refine ⟨calculate_lcoe_eq_some tc e he, ?_⟩
  rw [calculate_lcoe, if_pos]
  norm_num

theorem c6_lcoe_witness :
    (4 : ℚ) ≠ 0 ∧
    (calculate_lcoe 100 4 25 = some (100 / (4 * 25)) ∧
      calculate_lcoe 100 0 25 = none) :=
  ⟨by norm_num, c6_lcoe 100 4 (by norm_num)⟩

/-- Claim C7: `calculate_discounted_payback` is monotonic in the interest
rate: for fixed total cost and nonnegative savings, raising the rate from
r1 to r2 can only delay the payback year (or turn it into `none`);
equivalently, whenever the higher rate still yields a payback year, the
lower rate yields an equal or earlier one. -/
theorem c7_rate_monotone (tc s r1 r2 : ℚ) (y2 : ℕ) (hs : 0 ≤ s)
    (hr1 : 0 ≤ r1) (h12 : r1 ≤ r2)
    (h2 : calculate_discounted_payback tc s r2 25 = some y2) :
    ∃ y1, calculate_discounted_payback tc s r1 25 = some y1 ∧ y1 ≤ y2 := by
  rw [payback25_some_iff] at h2
  obtain ⟨h25, h1y2, hy225, hty2, -⟩ := h2
  have hcr : tc ≤ discountedCum s r1 y2 :=
    le_trans hty2 (discountedCum_anti s r1 r2 hs hr1 h12 y2)
  have hc25 : tc ≤ discountedCum s r1 25 :=
    le_trans hcr (discountedCum_mono s r1 hs hr1 hy225)
  have hnn : calculate_discounted_payback tc s r1 25 ≠ none := by
    intro hnone
    rw [payback25_none_iff] at hnone
    exact absurd hc25 (not_le.mpr hnone)
  obtain ⟨y1, hy1⟩ := Option.ne_none_iff_exists'.mp hnn
  refine ⟨y1, hy1, ?_⟩
  rw [payback25_some_iff] at hy1
  obtain ⟨-, -, -, -, hfirst1⟩ := hy1
  by_contra hgt
  push_neg at hgt
  exact absurd hcr (not_le.mpr (hfirst1 y2 h1y2 hgt))

theorem c7_rate_monotone_witness :
    ∃ y1, calculate_discounted_payback (3 / 4) 1 0 25 = some y1 ∧ y1 ≤ 2 := by
  apply c7_rate_monotone (3 / 4) 1 0 1 2 (by norm_num) (le_refl 0) (by norm_num)
  rw [payback25_some_iff]
  have hc2 : discountedCum 1 1 2 = 3 / 4 := by
    simp [discountedCum, Finset.sum_range_succ]
    norm_num
  have hc1 : discountedCum 1 1 1 = 1 / 2 := by
    simp [discountedCum]
    norm_num
  refine ⟨?_, by norm_num, by norm_num, le_of_eq hc2.symm, ?_⟩
  · calc (3 / 4 : ℚ) = discountedCum 1 1 2 := hc2.symm
    _ ≤ discountedCum 1 1 25 :=
        discountedCum_mono 1 1 (by norm_num) (by norm_num) (by norm_num)
  · intro z h1 h2
    obtain rfl : z = 1 := by omega
    rw [hc1]
    norm_num

/-- Claim C10 (corrected): whenever `calculate_discounted_payback` over the
25-year lifetime returns a non-null value, that value is between 1 and 25;
and when the total cost is nonpositive AND the annual savings are
nonnegative, the result is year 1.  (The original claim asserted the
year-1 case for every annual savings; `c10_counterexample` refutes that.) -/
theorem c10_payback_range (tc s r : ℚ) (y : ℕ) (hr : -1 < r) :
    (calculate_discounted_payback tc s r 25 = some y → 1 ≤ y ∧ y ≤ 25) ∧
    (tc ≤ 0 → 0 ≤ s → calculate_discounted_payback tc s r 25 = some 1) := by
  constructor
  · intro h
    rw [payback25_some_iff] at h
    exact ⟨h.2.1, h.2.2.1⟩
  · intro htc hs
    rw [payback25_some_iff]
    refine ⟨le_trans htc (discountedCum_nonneg s r hs hr 25), le_refl 1,
      by norm_num, le_trans htc (discountedCum_nonneg s r hs hr 1), ?_⟩
    intro z h1 h2
    exact absurd h2 (by omega)

theorem c10_payback_range_witness :
    (-1 : ℚ) < 0 ∧
    ((calculate_discounted_payback (-5) 1 0 25 = some 1 → 1 ≤ 1 ∧ 1 ≤ 25) ∧
      ((-5 : ℚ) ≤ 0 → (0 : ℚ) ≤ 1 →
        calculate_discounted_payback (-5) 1 0 25 = some 1)) :=
  ⟨by norm_num, c10_payback_range (-5) 1 0 1 (by norm_num)⟩

/-- Claim C1: on any pipeline run in which the Primary provider fails, the
Primary is attempted (once) and the Fallback is invoked exactly once; a
successful Fallback reading is tagged source = FALLBACK; and if the
Fallback also fails, the whole run fails with the surfaced irradiance
error and the energy estimator is never called. -/
theorem c1_fallback_policy (p fb : Option (List ℚ)) (area eff r : ℚ)
    (e0 : String) (hp : get_irradiance_pvgis p = Except.error e0) :
    (runEstimate p fb area eff r).1.primaryCalls = 1 ∧
    (runEstimate p fb area eff r).1.fallbackCalls = 1 ∧
    (∀ v, get_irradiance_nasa fb = Except.ok v →
      (acquireIrradiance p fb).2.2 = Except.ok ⟨v, Source.FALLBACK⟩) ∧
    (∀ msg, get_irradiance_nasa fb = Except.error msg →
      (runEstimate p fb area eff r).2 = Except.error msg ∧
      (runEstimate p fb area eff r).1.estimatorCalls = 0) := by
  unfold runEstimate acquireIrradiance
  rw [hp]
  cases hfb : get_irradiance_nasa fb with
  | ok v =>
    refine ⟨rfl, rfl, ?_, ?_⟩
    · intro w hw
      obtain rfl := Except.ok.inj hw
      rfl
    · intro msg hmsg
      exact Except.noConfusion hmsg
  | error e =>
    refine ⟨rfl, rfl, ?_, ?_⟩
    · intro w hw
      exact Except.noConfusion hw
    · intro msg hmsg
      obtain rfl := Except.error.inj hmsg
      exact ⟨rfl, rfl⟩

theorem c1_fallback_policy_witness :
    get_irradiance_pvgis none = Except.error "PVGIS failed" ∧
    ((runEstimate none (some [5]) 100 (18 / 100) (2 / 25)).1.primaryCalls = 1 ∧
    (runEstimate none (some [5]) 100 (18 / 100) (2 / 25)).1.fallbackCalls = 1 ∧
    (∀ v, get_irradiance_nasa (some [5]) = Except.ok v →
      (acquireIrradiance none (some [5])).2.2 = Except.ok ⟨v, Source.FALLBACK⟩) ∧
    (∀ msg, get_irradiance_nasa (some [5]) = Except.error msg →
      (runEstimate none (some [5]) 100 (18 / 100) (2 / 25)).2 = Except.error msg ∧
      (runEstimate none (some [5]) 100 (18 / 100) (2 / 25)).1.estimatorCalls = 0)) :=
  ⟨rfl, c1_fallback_policy none (some [5]) 100 (18 / 100) (2 / 25) "PVGIS failed" rfl⟩

/-- Claim C8 (corrected): an empty hourly series from the Primary service
does NOT count as a Primary failure — `get_irradiance_pvgis` returns a
successful 0.0 reading from it, and the pipeline uses that Primary-sourced
value without ever invoking the Fallback provider.  (The original claim
asserted the opposite; `c8_counterexample` refutes it.) -/
theorem c8_empty_series (fb : Option (List ℚ)) :
    get_irradiance_pvgis (some []) = Except.ok 0 ∧
    acquireIrradiance (some []) fb = (1, 0, Except.ok ⟨0, Source.PRIMARY⟩) := by
  have h : get_irradiance_pvgis (some []) = Except.ok 0 := by
    rw [get_irradiance_pvgis]
    norm_num [round2, roundHalfEven]
  refine ⟨h, ?_⟩
  unfold acquireIrradiance
  rw [h]

/-- Claim C8, counterexample to the original claim: with the Primary
response parsing to an empty hourly series (and a healthy Fallback
available), the Primary fetch succeeds with value 0, the result is tagged
PRIMARY rather than FALLBACK, and the Fallback is invoked zero times. -/
theorem c8_counterexample :
    get_irradiance_pvgis (some []) = Except.ok 0 ∧
    acquireIrradiance (some []) (some [5]) =
      (1, 0, Except.ok ⟨0, Source.PRIMARY⟩) :=
  c8_empty_series (some [5])

/-- Claim C9: for positive irradiance, positive area and efficiency in the
unit interval, the numeric stages all succeed and both the derived total
cost and the derived LCOE are nonnegative. -/
theorem c9_nonneg (irr area eff r : ℚ) (src : Source) (h1 : 0 < irr)
    (h2 : 0 < area) (h3 : 0 < eff) (_h4 : eff ≤ 1) :
    ∃ res, computeStages ⟨irr, src⟩ area eff r = Except.ok res ∧
      0 ≤ res.total_cost ∧ 0 ≤ res.lcoe := by
  have hE : 0 < estimate_energy_potential irr area eff := by
    rw [estimate_energy_potential]
    positivity
  set E := estimate_energy_potential irr area eff with hEdef
  have hsz : size_components E = (⌈E / 365 / (350 * 4.5 / 1000)⌉,
      round2 (E / 365 / 4.5), round2 (E / 365 * 0.5)) := rfl
  have hp : (0 : ℚ) ≤ (⌈E / 365 / (350 * 4.5 / 1000)⌉ : ℚ) := by
    have := Int.ceil_nonneg (α := ℚ) (le_of_lt (by positivity :
      (0 : ℚ) < E / 365 / (350 * 4.5 / 1000)))
    exact_mod_cast this
  have hb : 0 ≤ round2 (E / 365 * 0.5) := round2_nonneg _ (by positivity)
  have hTC : 0 ≤ totalCostOf ⌈E / 365 / (350 * 4.5 / 1000)⌉
      (round2 (E / 365 * 0.5)) := by
    rw [totalCostOf, systemCapacityKW]
    have t1 : (0 : ℚ) ≤ (⌈E / 365 / (350 * 4.5 / 1000)⌉ : ℚ) * 0.35 *
        (0.5 + 0.15) * 1000 := by
      apply mul_nonneg (mul_nonneg (mul_nonneg hp (by norm_num)) (by norm_num))
      norm_num
    have t2 : (0 : ℚ) ≤ round2 (E / 365 * 0.5) * 200 :=
      mul_nonneg hb (by norm_num)
    linarith
  have hl : 0 ≤ totalCostOf ⌈E / 365 / (350 * 4.5 / 1000)⌉
      (round2 (E / 365 * 0.5)) / (E * 25) :=
    div_nonneg hTC (by positivity)
  refine ⟨⟨⟨irr, src⟩, E, ⌈E / 365 / (350 * 4.5 / 1000)⌉,
    round2 (E / 365 / 4.5), round2 (E / 365 * 0.5),
    totalCostOf ⌈E / 365 / (350 * 4.5 / 1000)⌉ (round2 (E / 365 * 0.5)),
    totalCostOf ⌈E / 365 / (350 * 4.5 / 1000)⌉ (round2 (E / 365 * 0.5)) / (E * 25),
    calculate_discounted_payback
      (totalCostOf ⌈E / 365 / (350 * 4.5 / 1000)⌉ (round2 (E / 365 * 0.5)))
      (E * 0.15) r 25⟩, ?_, hTC, hl⟩
  unfold computeStages
  simp only [← hEdef, hsz]
  rw [calculate_lcoe_eq_some _ _ (ne_of_gt hE)]

theorem c9_nonneg_witness :
    ∃ res, computeStages ⟨5, Source.PRIMARY⟩ 100 (18 / 100) (2 / 25) =
      Except.ok res ∧ 0 ≤ res.total_cost ∧ 0 ≤ res.lcoe :=
  c9_nonneg 5 100 (18 / 100) (2 / 25) Source.PRIMARY (by norm_num)
    (by norm_num) (by norm_num) (by norm_num)

/-- Claim C10, counterexample to the original parenthetical: at
totalCost = 0 (≤ 0), annualSavings = -1 and interestRate = 0 (> -1) the
function returns `none`, not a non-null year-1 result. -/
theorem c10_counterexample :
    (0 : ℚ) ≤ 0 ∧ (-1 : ℚ) < 0 ∧
    calculate_discounted_payback 0 (-1) 0 25 = none := by
  refine ⟨le_refl 0, by norm_num, ?_⟩
  rw [payback25_none_iff]
  have h : discountedCum (-1) 0 25 = -25 := by
    simp [discountedCum, Finset.sum_const, Finset.card_range]
  rw [h]
  norm_num

end SolarApp
